import Mathlib

/-!
Verification development for the SmartThings integration
(`custom_components/smartthings`): a shallow embedding of the
subscription reconciliation engine (`smartapp.py`), the webhook handler
(`smartapp.py`), and the installation handshake config flow
(`config_flow.py`), together with theorems about their behaviour.

Remote API calls (`pysmartthings` / `aiohttp`) are modelled by explicit
outcome parameters of type `Except String _`: `.ok` is a normal return
and `.error` is an exception raised by the call (API or transport
failure).  Functions that can let an exception escape return
`Except String _` themselves; a function that always returns `.ok _`
provably never raises.
-/

namespace SmartThingsV2

/-! ## Constants from `const.py` -/

/-- Constant `IGNORED_CAPABILITIES` from `const.py`. -/
def IGNORED_CAPABILITIES : List String := ["execute", "healthCheck", "ocf"]

/-- Constant `SUBSCRIPTION_WARNING_LIMIT` from `const.py` (only gates a log warning). -/
def SUBSCRIPTION_WARNING_LIMIT : Nat := 40

/-! ### The `VAL_UID` regular expression

`VAL_UID = "^(?:([0-9a-fA-F]{32})|([0-9a-fA-F]{8}-[0-9a-fA-F]{4}-[0-9a-fA-F]{4}-[0-9a-fA-F]{4}-[0-9a-fA-F]{12}))$"`
used through `VAL_UID_MATCHER.match(...)`.  Python's `$` also matches
just before a single trailing newline, so the matcher is modelled on the
character list with that allowance. -/

/-- A character matched by the class `[0-9a-fA-F]`. -/
def isHexDigitChar (c : Char) : Bool :=
  (('0' ≤ c) && (c ≤ '9')) || (('a' ≤ c) && (c ≤ 'f')) || (('A' ≤ c) && (c ≤ 'F'))

/-- Exactly `n` characters of the class `[0-9a-fA-F]`. -/
def hexRun (cs : List Char) (n : Nat) : Bool :=
  cs.length == n && cs.all isHexDigitChar

/-- Split a character list on a separator character (groups between
separators, in order). -/
def splitOnChar (sep : Char) (cs : List Char) : List (List Char) :=
  cs.foldr
    (fun c acc =>
      match acc with
      | [] => [[c]]
      | g :: gs => if c = sep then [] :: g :: gs else (c :: g) :: gs)
    [[]]

/-- The first alternative of `VAL_UID`: 32 hex characters. -/
def matchesHex32 (cs : List Char) : Bool :=
  hexRun cs 32

/-- The second alternative of `VAL_UID`: the hyphenated UUID form
`{8}-{4}-{4}-{4}-{12}`. -/
def matchesHyphenUUID (cs : List Char) : Bool :=
  match splitOnChar '-' cs with
  | [a, b, c, d, e] =>
      hexRun a 8 && hexRun b 4 && hexRun c 4 && hexRun d 4 && hexRun e 12
  | _ => false

/-- The Boolean outcome of `VAL_UID_MATCHER.match(s)` from `const.py`: anchored at
the start by `re.match`, anchored at the end by `$` (which in Python also
matches just before one trailing newline). -/
def VAL_UID_MATCHER (s : String) : Bool :=
  let cs := s.data
  let core := if cs.getLast? = some '\n' then cs.dropLast else cs
  matchesHex32 core || matchesHyphenUUID core

/-! ## Data model for the reconciler (`smartapp.py`) -/

/-- A device snapshot entry: only its capability list is consulted. -/
structure Device where
  capabilities : List String
deriving DecidableEq, Repr

/-- A remote subscription record as returned by
`api.subscriptions(installed_app_id)` (a `SubscriptionEntity`): the pass
reads its `capability` and `subscription_id`. -/
structure SubscriptionE where
  subscription_id : String
  capability : String
deriving DecidableEq, Repr

/-- The `Subscription` record built by `create_subscription` before
calling `api.create_subscription`. -/
structure Subscription where
  installed_app_id : String
  location_id : String
  source_type : String
  capability : String
deriving DecidableEq, Repr

/-- A remote API call issued during a reconciliation pass. -/
inductive SyncCall where
  | listSubscriptions (installed_app_id : String)
  | createSub (sub : Subscription)
  | deleteSub (installed_app_id : String) (subscription_id : String)
deriving DecidableEq, Repr

/-- The desired capability set of a pass: the union of all device
capabilities (`capabilities.update(device.capabilities)`), intersected
with the platform allowlist (`capabilities.intersection_update(CAPABILITIES)`
— `CAPABILITIES` is a constant of the external `pysmartthings` library,
taken here as the parameter `ALLOW`), minus the denylist
(`capabilities.difference_update(IGNORED_CAPABILITIES)`). -/
def desiredCapabilitySet (ALLOW : Finset String) (devices : List Device) : Finset String :=
  ((devices.foldl (fun acc d => acc ∪ d.capabilities.toFinset) ∅) ∩ ALLOW)
    \ IGNORED_CAPABILITIES.toFinset

/-- The diff loop of `smartapp_sync_subscriptions`:
`for subscription in subscriptions: if subscription.capability in
capabilities: capabilities.remove(...) else: tasks.append(delete(...))`.
Returns `(remaining capabilities to create, kept subscriptions,
subscriptions marked for deletion)`; the kept list is implicit in the
source (a subscription neither removed from `capabilities` nor marked
for deletion is simply left in place remotely). -/
def partitionSubs : List SubscriptionE → Finset String →
    Finset String × List SubscriptionE × List SubscriptionE
  | [], caps => (caps, [], [])
  | s :: rest, caps =>
    if s.capability ∈ caps then
      let r := partitionSubs rest (caps.erase s.capability)
      (r.1, s :: r.2.1, r.2.2)
    else
      let r := partitionSubs rest caps
      (r.1, r.2.1, s :: r.2.2)

/-- The `try: await ... except Exception as error: _LOGGER.error(...)`
pattern of the two inner coroutines: any raised error is logged and
absorbed, so the wrapped call always returns normally. -/
def tryLog (e : Except String Unit) : Except String Unit :=
  match e with
  | .ok _ => .ok ()
  | .error _ => .ok ()

/-- The inner `create_subscription(target)` coroutine: builds the
`Subscription` record exactly as the source does, awaits the API call,
and catches any exception (logging it); it therefore always returns
normally.  The second component records the API call it issues. -/
def create_subscription (outcome : Subscription → Except String Unit)
    (installed_app_id location_id target : String) :
    Except String Unit × SyncCall :=
  let sub : Subscription :=
    { installed_app_id := installed_app_id, location_id := location_id,
      source_type := "CAPABILITY", capability := target }
  (tryLog (outcome sub), .createSub sub)

/-- The inner `delete_subscription(sub)` coroutine: awaits
`api.delete_subscription(installed_app_id, sub.subscription_id)` and
catches any exception (logging it); it always returns normally. -/
def delete_subscription (outcome : String → String → Except String Unit)
    (installed_app_id : String) (sub : SubscriptionE) :
    Except String Unit × SyncCall :=
  (tryLog (outcome installed_app_id sub.subscription_id),
   .deleteSub installed_app_id sub.subscription_id)

/-- Model of `asyncio.gather(*tasks)`: every task runs; the gather raises if some
task raised.  (Since every task here is a `create_subscription` or
`delete_subscription`, which absorb their errors, the gather never
raises in this program.) -/
def gather : List (Except String Unit) → Except String Unit
  | [] => .ok ()
  | t :: ts =>
    match t with
    | .ok _ => gather ts
    | .error e => .error e

/-- Function `smartapp_sync_subscriptions` from `smartapp.py`.
`apiSubscriptions` is the outcome of `await api.subscriptions(installed_app_id)`
(issued outside any `try`), `apiCreate`/`apiDelete` the outcomes of the
individual create/delete calls.  Returns the outcome of the pass (an
`.error` means an exception escaped the pass) and the trace of remote
API calls it issued.  The remaining capabilities are iterated in sorted
order (Python iterates its `set` in an unspecified order; no claim here
depends on the order of the create calls). -/
def smartapp_sync_subscriptions (ALLOW : Finset String)
    (apiSubscriptions : Except String (List SubscriptionE))
    (apiCreate : Subscription → Except String Unit)
    (apiDelete : String → String → Except String Unit)
    (installed_app_id location_id : String)
    (devices : List Device) : Except String Unit × List SyncCall :=
  let capabilities := desiredCapabilitySet ALLOW devices
  match apiSubscriptions with
  | .error e => (.error e, [.listSubscriptions installed_app_id])
  | .ok subscriptions =>
    let r := partitionSubs subscriptions capabilities
    let tasks :=
      r.2.2.map (delete_subscription apiDelete installed_app_id)
        ++ (r.1.sort (· ≤ ·)).map
            (create_subscription apiCreate installed_app_id location_id)
    (gather (tasks.map Prod.fst),
     .listSubscriptions installed_app_id :: tasks.map Prod.snd)

/-- The remote capability set after a pass in which every issued delete
and create succeeds: the capabilities of the subscriptions the pass kept
(those of the snapshot it did not delete, see `partitionSubs`) together
with the capabilities it created. -/
def remoteAfterPass (subs : List SubscriptionE) (desired : Finset String) :
    Finset String :=
  let r := partitionSubs subs desired
  (r.2.1.map SubscriptionE.capability).toFinset ∪ r.1

/-! ## Webhook handler (`smartapp_webhook` in `smartapp.py`)

```
data = await request.json()
try:
    result = await manager.handle_request(data, request.headers)
    return web.json_response(result)
except Exception as e:
    return web.Response(status=500)
```
Note that the body is parsed *before* the `try` block. -/

/-- An HTTP response produced by the webhook handler: either
`web.json_response(result)` or `web.Response(status=...)`. -/
inductive WebResponse where
  | jsonResponse (result : String)
  | statusResponse (status : Nat)
deriving DecidableEq, Repr

/-- Handler `smartapp_webhook`: `parse` is the outcome of `await request.json()`
(`.error` when the raw body is not valid JSON), `handle` the outcome of
`await manager.handle_request(data, request.headers)`.  An `.error`
result means an exception escaped the handler to the transport layer. -/
def smartapp_webhook (parse : Except String String)
    (handle : String → List (String × String) → Except String String)
    (headers : List (String × String)) : Except String WebResponse :=
  match parse with
  | .error e => .error e
  | .ok data =>
    match handle data headers with
    | .ok result => .ok (.jsonResponse result)
    | .error _ => .ok (.statusResponse 500)

/-! ## Config flow (`config_flow.py`) -/

/-- Configuration keys (`homeassistant.const` and `const.py`). -/
def CONF_ACCESS_TOKEN : String := "access_token"

/-- Key from `const.py`. -/
def CONF_LOCATION_ID : String := "location_id"

/-- Key from `const.py`. -/
def CONF_INSTALLED_APP_ID : String := "installed_app_id"

/-- Key from `const.py`. -/
def CONF_REFRESH_TOKEN : String := "refresh_token"

/-- A location record returned by `api.locations()`. -/
structure Location where
  location_id : String
  name : String
deriving DecidableEq, Repr

/-- Outcomes of the remote API calls a flow run may issue:
`find_app(hass, api)` (the app id of a pre-existing registration, if
any), `app.refresh()`, `update_app(hass, app)`, `create_app(hass, api)`
(the new app id and the issued OAuth client id/secret) and
`api.locations()`.  An `.error` is an `APIResponseError` or
`ClientResponseError` raised by the call. -/
structure RemoteApi where
  find_app : Except String (Option String)
  app_refresh : Except String Unit
  update_app : Except String Unit
  create_app : Except String (String × String × String)
  locations : Except String (List Location)

/-- The mutable fields of `SmartThingsFlowHandler` (`__init__` plus the
class-level `api`, `app_id`, `location_id` attributes, which start
unset). -/
structure FlowState where
  access_token : Option String
  oauth_client_id : Option String
  oauth_client_secret : Option String
  installed_app_id : Option String
  refresh_token : Option String
  app_id : Option String
  location_id : Option String
  endpoints_initialized : Bool
deriving DecidableEq, Repr

/-- The state `__init__` produces. -/
def initialFlowState : FlowState :=
  { access_token := none, oauth_client_id := none, oauth_client_secret := none,
    installed_app_id := none, refresh_token := none, app_id := none,
    location_id := none, endpoints_initialized := false }

/-- The persisted `data` of the config entry created at the terminal
step. -/
structure EntryData where
  access_token : Option String
  refresh_token : Option String
  client_id : Option String
  client_secret : Option String
  location_id : Option String
  app_id : Option String
  installed_app_id : Option String
deriving DecidableEq, Repr

/-- The result a flow step returns: a form (with error annotations), the
location-selection form (with its choice list), an abort, a created
config entry, or the external authorization step (carrying the `app_id`
and `location_id` from which `format_install_url` builds the URL). -/
inductive FlowResult where
  | showForm (step_id : String) (errors : List (String × String))
  | showSelectForm (step_id : String) (options : List (String × String))
  | abort (reason : String)
  | createEntry (title : String) (data : EntryData)
  | externalStep (step_id : String) (app_id : Option String) (location_id : Option String)
deriving DecidableEq, Repr

/-- A remote API call issued by a flow step. -/
inductive FlowCall where
  | findApp
  | refreshApp
  | updateApp
  | createApp
  | listLocations
deriving DecidableEq, Repr

/-- Python dict construction from a sequence of key/value pairs: a later
pair with an existing key overwrites its value in place. -/
def dictOfPairs (ps : List (String × String)) : List (String × String) :=
  ps.foldl
    (fun acc kv =>
      if acc.any (fun p => p.1 = kv.1) then
        acc.map (fun p => if p.1 = kv.1 then (p.1, kv.2) else p)
      else acc ++ [kv])
    []

/-- Step `async_step_authorize`: with truthy `user_input` (a non-empty dict)
it stores `user_input.get(CONF_INSTALLED_APP_ID)` and
`user_input.get(CONF_REFRESH_TOKEN)` (each `none` when the key is
absent) and creates the config entry from the accumulated fields;
otherwise it returns the external authorization step built from
`app_id` and `location_id`. -/
def async_step_authorize (st : FlowState)
    (user_input : Option (List (String × String))) :
    FlowState × Except String FlowResult × List FlowCall :=
  match user_input with
  | some l =>
    if l.isEmpty then
      (st, .ok (.externalStep "authorize" st.app_id st.location_id), [])
    else
      let st' := { st with
        installed_app_id := l.lookup CONF_INSTALLED_APP_ID,
        refresh_token := l.lookup CONF_REFRESH_TOKEN }
      (st', .ok (.createEntry "SmartThings"
        { access_token := st'.access_token,
          refresh_token := st'.refresh_token,
          client_id := st'.oauth_client_id,
          client_secret := st'.oauth_client_secret,
          location_id := st'.location_id,
          app_id := st'.app_id,
          installed_app_id := st'.installed_app_id }), [])
  | none => (st, .ok (.externalStep "authorize" st.app_id st.location_id), [])

/-- The fetch branch of `async_step_select_location`: list the locations
(`await self.api.locations()` — not guarded by any `try`, so its error
propagates), build the id→name options dict, abort when it is empty,
otherwise show the selection form. -/
def select_location_fetch (api : RemoteApi) (st : FlowState) :
    FlowState × Except String FlowResult × List FlowCall :=
  match api.locations with
  | .error e => (st, .error e, [.listLocations])
  | .ok locations =>
    let locations_options :=
      dictOfPairs (locations.map (fun loc => (loc.location_id, loc.name)))
    if locations_options.isEmpty then
      (st, .ok (.abort "no_available_locations"), [.listLocations])
    else
      (st, .ok (.showSelectForm "select_location" locations_options), [.listLocations])

/-- Step `async_step_select_location`: when `user_input is None or
CONF_LOCATION_ID not in user_input`, fetch the location list; otherwise
store the selection and proceed to `async_step_authorize`. -/
def async_step_select_location (api : RemoteApi) (st : FlowState)
    (user_input : Option (List (String × String))) :
    FlowState × Except String FlowResult × List FlowCall :=
  match user_input with
  | none => select_location_fetch api st
  | some l =>
    match l.lookup CONF_LOCATION_ID with
    | none => select_location_fetch api st
    | some loc => async_step_authorize { st with location_id := some loc } none

/-- Step `async_step_pat`: show the form when no token was supplied; store
the token; reject it with `token_invalid_format` when it fails
`VAL_UID_MATCHER` (before any API call); otherwise run the guarded
`find_app` / `refresh` / `update_app` / `create_app` sequence, returning
to the `pat` form with `app_setup_error` on any caught API error, and on
success record the app id (and, only when a new app was created, the
OAuth client credentials) and continue with
`async_step_select_location`. -/
def async_step_pat (api : RemoteApi) (st : FlowState)
    (user_input : Option (List (String × String))) :
    FlowState × Except String FlowResult × List FlowCall :=
  match user_input.bind (List.lookup CONF_ACCESS_TOKEN) with
  | none => (st, .ok (.showForm "pat" []), [])
  | some token =>
    let st₁ := { st with access_token := some token }
    if VAL_UID_MATCHER token then
      match api.find_app with
      | .error _ =>
        (st₁, .ok (.showForm "pat" [("base", "app_setup_error")]), [.findApp])
      | .ok (some found_app_id) =>
        match api.app_refresh with
        | .error _ =>
          (st₁, .ok (.showForm "pat" [("base", "app_setup_error")]),
           [.findApp, .refreshApp])
        | .ok _ =>
          match api.update_app with
          | .error _ =>
            (st₁, .ok (.showForm "pat" [("base", "app_setup_error")]),
             [.findApp, .refreshApp, .updateApp])
          | .ok _ =>
            let st₂ := { st₁ with app_id := some found_app_id }
            let next := async_step_select_location api st₂ none
            (next.1, next.2.1, [.findApp, .refreshApp, .updateApp] ++ next.2.2)
      | .ok none =>
        match api.create_app with
        | .error _ =>
          (st₁, .ok (.showForm "pat" [("base", "app_setup_error")]),
           [.findApp, .createApp])
        | .ok (new_app_id, client_id, client_secret) =>
          let st₂ := { st₁ with
            app_id := some new_app_id,
            oauth_client_id := some client_id,
            oauth_client_secret := some client_secret }
          let next := async_step_select_location api st₂ none
          (next.1, next.2.1, [.findApp, .createApp] ++ next.2.2)
    else
      (st₁, .ok (.showForm "pat" [(CONF_ACCESS_TOKEN, "token_invalid_format")]), [])

/-- Whether the guarded block of `async_step_pat` raises a caught API
error: `find_app` fails, or an app was found and `refresh`/`update_app`
fails, or no app was found and `create_app` fails. -/
def app_setup_fails (api : RemoteApi) : Bool :=
  match api.find_app with
  | .error _ => true
  | .ok (some _) =>
    (match api.app_refresh with | .error _ => true | .ok _ => false)
      || (match api.update_app with | .error _ => true | .ok _ => false)
  | .ok none =>
    match api.create_app with | .error _ => true | .ok _ => false

/-! ## Lemmas about the reconciliation diff -/

lemma tryLog_ok (e : Except String Unit) : tryLog e = .ok () := by
  cases e <;> rfl

lemma gather_ok (l : List (Except String Unit)) (h : ∀ x ∈ l, x = .ok ()) :
    gather l = .ok () := by
  induction l with
  | nil => rfl
  | cons t ts ih =>
    rw [h t (List.mem_cons_self t ts)]
    exact ih fun x hx => h x (List.mem_cons_of_mem t hx)

lemma partitionSubs_create_eq (subs : List SubscriptionE) (caps : Finset String) :
    (partitionSubs subs caps).1
      = caps \ (subs.map SubscriptionE.capability).toFinset := by
  induction subs generalizing caps with
  | nil => simp [partitionSubs]
  | cons s rest ih =>
    by_cases h : s.capability ∈ caps
    · rw [partitionSubs, if_pos h]
      simp only [ih]
      ext x
      by_cases hx : x = s.capability <;>
        simp [hx, h, Finset.mem_sdiff, Finset.mem_erase]
    · rw [partitionSubs, if_neg h]
      simp only [ih]
      ext x
      by_cases hx : x = s.capability <;>
        simp [hx, h, Finset.mem_sdiff]

lemma partitionSubs_kept_mem {subs : List SubscriptionE} {caps : Finset String}
    {t : SubscriptionE} (ht : t ∈ (partitionSubs subs caps).2.1) :
    t.capability ∈ caps := by
  induction subs generalizing caps with
  | nil => simp [partitionSubs] at ht
  | cons s rest ih =>
    by_cases h : s.capability ∈ caps
    · rw [partitionSubs, if_pos h] at ht
      rcases List.mem_cons.mp ht with rfl | ht'
      · exact h
      · exact Finset.mem_of_mem_erase (ih ht')
    · rw [partitionSubs, if_neg h] at ht
      exact ih ht

lemma partitionSubs_kept_nodup (subs : List SubscriptionE) (caps : Finset String) :
    ((partitionSubs subs caps).2.1.map SubscriptionE.capability).Nodup := by
  induction subs generalizing caps with
  | nil => simp [partitionSubs]
  | cons s rest ih =>
    by_cases h : s.capability ∈ caps
    · rw [partitionSubs, if_pos h]
      simp only [List.map_cons, List.nodup_cons]
      refine ⟨fun hmem => ?_, ih _⟩
      rcases List.mem_map.mp hmem with ⟨t, ht, hcap⟩
      have hm := partitionSubs_kept_mem ht
      rw [hcap] at hm
      exact Finset.not_mem_erase s.capability caps hm
    · rw [partitionSubs, if_neg h]
      exact ih _

lemma partitionSubs_perm (subs : List SubscriptionE) (caps : Finset String) :
    ((partitionSubs subs caps).2.1 ++ (partitionSubs subs caps).2.2).Perm subs := by
  induction subs generalizing caps with
  | nil => simp [partitionSubs]
  | cons s rest ih =>
    by_cases h : s.capability ∈ caps
    · rw [partitionSubs, if_pos h]
      exact (ih (caps.erase s.capability)).cons s
    · rw [partitionSubs, if_neg h]
      exact List.perm_middle.trans ((ih caps).cons s)

lemma partitionSubs_filter_of_not_mem (subs : List SubscriptionE)
    (caps : Finset String) (c : String) (hc : c ∉ caps) :
    (partitionSubs subs caps).2.1.filter (fun s => s.capability == c) = [] := by
  rw [List.filter_eq_nil_iff]
  intro t ht
  simp only [beq_iff_eq]
  exact fun hcap => hc (hcap ▸ partitionSubs_kept_mem ht)

lemma partitionSubs_filter_first (subs : List SubscriptionE) (caps : Finset String)
    (c : String) (hc : c ∈ caps) :
    (partitionSubs subs caps).2.1.filter (fun s => s.capability == c)
      = (subs.find? (fun s => s.capability == c)).toList := by
  induction subs generalizing caps with
  | nil => simp [partitionSubs]
  | cons s rest ih =>
    by_cases h : s.capability ∈ caps
    · by_cases hsc : s.capability = c
      · rw [partitionSubs, if_pos h, List.find?_cons_of_pos rest (by simp [hsc])]
        rw [List.filter_cons, if_pos (by simp [hsc])]
        rw [partitionSubs_filter_of_not_mem rest _ c
          (hsc ▸ Finset.not_mem_erase s.capability caps)]
        rfl
      · rw [partitionSubs, if_pos h, List.find?_cons_of_neg rest (by simp [hsc])]
        rw [List.filter_cons, if_neg (by simp [hsc])]
        exact ih _ (Finset.mem_erase.mpr ⟨fun e => hsc e.symm, hc⟩)
    · have hsc : s.capability ≠ c := fun e => h (e ▸ hc)
      rw [partitionSubs, if_neg h, List.find?_cons_of_neg rest (by simp [hsc])]
      exact ih caps hc

lemma partitionSubs_of_nodup (subs : List SubscriptionE) (caps : Finset String)
    (hnd : (subs.map SubscriptionE.capability).Nodup) :
    (partitionSubs subs caps).2.1
        = subs.filter (fun s => decide (s.capability ∈ caps)) ∧
      (partitionSubs subs caps).2.2
        = subs.filter (fun s => decide (s.capability ∉ caps)) := by
  induction subs generalizing caps with
  | nil => simp [partitionSubs]
  | cons s rest ih =>
    simp only [List.map_cons, List.nodup_cons] at hnd
    obtain ⟨hs, hrest⟩ := hnd
    have hagree : ∀ t ∈ rest,
        decide (t.capability ∈ caps.erase s.capability)
          = decide (t.capability ∈ caps) := by
      intro t ht
      have : t.capability ≠ s.capability := fun e => hs (e ▸ List.mem_map_of_mem _ ht)
      simp [Finset.mem_erase, this]
    have hagree' : ∀ t ∈ rest,
        decide (t.capability ∉ caps.erase s.capability)
          = decide (t.capability ∉ caps) := by
      intro t ht
      have : t.capability ≠ s.capability := fun e => hs (e ▸ List.mem_map_of_mem _ ht)
      simp [Finset.mem_erase, this]
    by_cases h : s.capability ∈ caps
    · obtain ⟨hk, hd⟩ := ih (caps.erase s.capability) hrest
      constructor
      · rw [partitionSubs, if_pos h]
        simp only [hk, List.filter_congr hagree]
        rw [List.filter_cons, if_pos (by simp [h])]
      · rw [partitionSubs, if_pos h]
        simp only [hd, List.filter_congr hagree']
        rw [List.filter_cons, if_neg (by simp [h])]
    · obtain ⟨hk, hd⟩ := ih caps hrest
      constructor
      · rw [partitionSubs, if_neg h]
        simp only [hk]
        rw [List.filter_cons, if_neg (by simp [h])]
      · rw [partitionSubs, if_neg h]
        simp only [hd]
        rw [List.filter_cons, if_pos (by simp [h])]

lemma partitionSubs_kept_capset (subs : List SubscriptionE) (caps : Finset String)
    (hnd : (subs.map SubscriptionE.capability).Nodup) :
    ((partitionSubs subs caps).2.1.map SubscriptionE.capability).toFinset
      = (subs.map SubscriptionE.capability).toFinset ∩ caps := by
  obtain ⟨hk, -⟩ := partitionSubs_of_nodup subs caps hnd
  rw [hk]
  ext x
  simp only [List.mem_toFinset, List.mem_map, List.mem_filter, Finset.mem_inter,
    decide_eq_true_eq]
  constructor
  · rintro ⟨t, ⟨ht, hcap⟩, rfl⟩
    exact ⟨⟨t, ht, rfl⟩, hcap⟩
  · rintro ⟨⟨t, ht, rfl⟩, hx⟩
    exact ⟨t, ⟨ht, hx⟩, rfl⟩

lemma sync_tasks_fst_ok (apiCreate : Subscription → Except String Unit)
    (apiDelete : String → String → Except String Unit) (app loc : String)
    (dels : List SubscriptionE) (crs : List String) :
    ∀ x ∈ (dels.map (delete_subscription apiDelete app)
        ++ crs.map (create_subscription apiCreate app loc)).map Prod.fst,
      x = .ok () := by
  intro x hx
  rw [List.map_append, List.mem_append] at hx
  rcases hx with hx | hx <;> rw [List.map_map] at hx <;>
    rcases List.mem_map.mp hx with ⟨y, -, rfl⟩
  · exact tryLog_ok _
  · exact tryLog_ok _

lemma select_location_fetch_state (api : RemoteApi) (st : FlowState) :
    (select_location_fetch api st).1 = st := by
  unfold select_location_fetch
  cases api.locations with
  | error e => rfl
  | ok locations =>
    dsimp only
    split <;> rfl

/-! ## Claim theorems -/

/-- C1, counterexample: a request whose raw body is not valid JSON makes
`await request.json()` raise *before* the `try` block of
`smartapp_webhook`, so the exception propagates to the transport layer
instead of being converted to a 500 response — contradicting the claim
that every exception is caught for every raw body, including non-JSON
bodies. -/
theorem webhook_invalid_json_propagates :
    smartapp_webhook (.error "invalid json body")
      (fun _ _ => .ok "handled") [] = .error "invalid json body" := rfl

/-- C1, amended: for every inbound request whose raw body parses as
JSON, `smartapp_webhook` never lets an exception escape: an error from
the lifecycle manager is converted to a 500 response, and on success the
manager's result is returned serialized as the JSON response body. -/
theorem webhook_parsed_body_never_raises (data : String)
    (handle : String → List (String × String) → Except String String)
    (headers : List (String × String)) :
    smartapp_webhook (.ok data) handle headers
      = .ok (match handle data headers with
             | .ok result => .jsonResponse result
             | .error _ => .statusResponse 500) := by
  cases h : handle data headers <;> simp [smartapp_webhook, h]

/-- C4, counterexample: an error raised by the `listSubscriptions` call
(`await api.subscriptions(installed_app_id)`, issued outside any `try`)
is *not* absorbed: the reconciliation pass itself raises —
contradicting the claim that an error from any individual operation
during the pass is absorbed and the pass completes without raising. -/
theorem reconcile_list_error_propagates :
    (smartapp_sync_subscriptions ∅ (.error "API unavailable")
        (fun _ => .ok ()) (fun _ _ => .ok ()) "app1" "loc1" []).1
      = .error "API unavailable" := rfl

/-- C4, amended: when the `listSubscriptions` call succeeds, every error
raised by an individual `createSubscription` or `deleteSubscription`
operation is logged and absorbed: the pass completes without raising
(`.ok ()`), and the set of operations attempted is exactly the same as
in a run in which every operation succeeds — so one operation's failure
never prevents a sibling operation from being attempted. -/
theorem reconcile_create_delete_errors_absorbed (ALLOW : Finset String)
    (subs : List SubscriptionE)
    (apiCreate : Subscription → Except String Unit)
    (apiDelete : String → String → Except String Unit)
    (app loc : String) (devices : List Device) :
    (smartapp_sync_subscriptions ALLOW (.ok subs) apiCreate apiDelete
        app loc devices).1 = .ok () ∧
    (smartapp_sync_subscriptions ALLOW (.ok subs) apiCreate apiDelete
        app loc devices).2
      = (smartapp_sync_subscriptions ALLOW (.ok subs)
          (fun _ => .ok ()) (fun _ _ => .ok ()) app loc devices).2 := by
  constructor
  · exact gather_ok _
      (sync_tasks_fst_ok apiCreate apiDelete app loc
        (partitionSubs subs (desiredCapabilitySet ALLOW devices)).2.2
        ((partitionSubs subs (desiredCapabilitySet ALLOW devices)).1.sort (· ≤ ·)))
  · simp only [smartapp_sync_subscriptions, List.map_append, List.map_map]
    rfl

/-- C7: a credential string rejected by the `VAL_UID` matcher makes
`async_step_pat` return the `token_invalid_format` validation error at
the `pat` step, with no remote API call issued (empty call trace) and
only the submitted token stored. -/
theorem pat_invalid_token_rejected_without_api_call (api : RemoteApi)
    (st : FlowState) (l : List (String × String)) (token : String)
    (htok : l.lookup CONF_ACCESS_TOKEN = some token)
    (hval : VAL_UID_MATCHER token = false) :
    async_step_pat api st (some l)
      = ({ st with access_token := some token },
         .ok (.showForm "pat" [(CONF_ACCESS_TOKEN, "token_invalid_format")]),
         []) := by
  unfold async_step_pat
  simp only [Option.bind, htok, hval]
  rfl

/-- C7, witness: the spec's example credential `"not-a-uuid"`. -/
theorem pat_invalid_token_rejected_without_api_call_witness :
    async_step_pat ⟨.ok none, .ok (), .ok (), .ok ("a", "b", "c"), .ok []⟩
        initialFlowState (some [(CONF_ACCESS_TOKEN, "not-a-uuid")])
      = ({ initialFlowState with access_token := some "not-a-uuid" },
         .ok (.showForm "pat" [(CONF_ACCESS_TOKEN, "token_invalid_format")]),
         []) :=
  pat_invalid_token_rejected_without_api_call _ _ _ _ (by decide) (by decide)

/-- C8: when `api.locations()` returns an empty collection,
`async_step_select_location` (invoked with no selection) terminally
aborts with reason `no_available_locations` after the single listing
call: the `authorize` step is never reached and no entry is created. -/
theorem select_location_empty_aborts (st : FlowState)
    (f : Except String (Option String)) (r u : Except String Unit)
    (c : Except String (String × String × String)) :
    async_step_select_location ⟨f, r, u, c, .ok []⟩ st none
      = (st, .ok (.abort "no_available_locations"), [.listLocations]) := rfl

/-- C2: under the invariant that the remote snapshot holds at most one
subscription per capability, one reconciliation pass over desired set
`T = desiredCapabilitySet ALLOW devices` issues, after the single
listing call, exactly one delete for each subscription whose capability
is not in `T` and one create for each capability of `T` with no matching
subscription; the matching subscriptions are kept untouched, and if
every issued call succeeds the remote capability set afterwards equals
exactly `T`. -/
theorem reconcile_convergence (ALLOW : Finset String) (devices : List Device)
    (subs : List SubscriptionE)
    (apiCreate : Subscription → Except String Unit)
    (apiDelete : String → String → Except String Unit)
    (app loc : String)
    (hnd : (subs.map SubscriptionE.capability).Nodup) :
    (smartapp_sync_subscriptions ALLOW (.ok subs) apiCreate apiDelete
        app loc devices).2
      = .listSubscriptions app
          :: ((subs.filter fun s =>
                decide (s.capability ∉ desiredCapabilitySet ALLOW devices)).map
               fun s => .deleteSub app s.subscription_id)
          ++ (((desiredCapabilitySet ALLOW devices)
                \ (subs.map SubscriptionE.capability).toFinset).sort (· ≤ ·)).map
               (fun c => .createSub
                 { installed_app_id := app, location_id := loc,
                   source_type := "CAPABILITY", capability := c }) ∧
    (partitionSubs subs (desiredCapabilitySet ALLOW devices)).2.1
      = subs.filter
          (fun s => decide (s.capability ∈ desiredCapabilitySet ALLOW devices)) ∧
    remoteAfterPass subs (desiredCapabilitySet ALLOW devices)
      = desiredCapabilitySet ALLOW devices := by
  obtain ⟨hk, hd⟩ :=
    partitionSubs_of_nodup subs (desiredCapabilitySet ALLOW devices) hnd
  refine ⟨?_, hk, ?_⟩
  · simp only [smartapp_sync_subscriptions, List.map_append, List.map_map, hd,
      partitionSubs_create_eq]
    rfl
  · rw [remoteAfterPass]
    simp only [partitionSubs_kept_capset subs _ hnd, partitionSubs_create_eq]
    ext x
    by_cases hx : x ∈ (subs.map SubscriptionE.capability).toFinset <;>
      simp [hx]

/-- C2, witness: the spec's worked example — devices with capability
unions `{switch, switchLevel}` and `{switch, thermostatMode}` against a
remote snapshot holding only a `switch` subscription. -/
theorem reconcile_convergence_witness :
    (smartapp_sync_subscriptions
        {"switch", "switchLevel", "thermostatMode", "healthCheck"}
        (.ok [⟨"s1", "switch"⟩]) (fun _ => .ok ()) (fun _ _ => .ok ())
        "app1" "loc1"
        [⟨["switch", "switchLevel"]⟩, ⟨["switch", "thermostatMode"]⟩]).2
      = .listSubscriptions "app1"
          :: (List.map (fun (s : SubscriptionE) => .deleteSub "app1" s.subscription_id)
               (([⟨"s1", "switch"⟩] : List SubscriptionE).filter
                 (fun (s : SubscriptionE) =>
                   decide (s.capability ∉ desiredCapabilitySet
                     {"switch", "switchLevel", "thermostatMode", "healthCheck"}
                     [⟨["switch", "switchLevel"]⟩, ⟨["switch", "thermostatMode"]⟩]))))
          ++ (((desiredCapabilitySet
                  {"switch", "switchLevel", "thermostatMode", "healthCheck"}
                  [⟨["switch", "switchLevel"]⟩, ⟨["switch", "thermostatMode"]⟩])
                \ (([⟨"s1", "switch"⟩] : List SubscriptionE).map
                    SubscriptionE.capability).toFinset).sort (· ≤ ·)).map
               (fun c => .createSub
                 { installed_app_id := "app1", location_id := "loc1",
                   source_type := "CAPABILITY", capability := c }) ∧
    (partitionSubs [⟨"s1", "switch"⟩]
        (desiredCapabilitySet
          {"switch", "switchLevel", "thermostatMode", "healthCheck"}
          [⟨["switch", "switchLevel"]⟩, ⟨["switch", "thermostatMode"]⟩])).2.1
      = ([⟨"s1", "switch"⟩] : List SubscriptionE).filter
          (fun (s : SubscriptionE) => decide (s.capability ∈ desiredCapabilitySet
            {"switch", "switchLevel", "thermostatMode", "healthCheck"}
            [⟨["switch", "switchLevel"]⟩, ⟨["switch", "thermostatMode"]⟩])) ∧
    remoteAfterPass [⟨"s1", "switch"⟩]
        (desiredCapabilitySet
          {"switch", "switchLevel", "thermostatMode", "healthCheck"}
          [⟨["switch", "switchLevel"]⟩, ⟨["switch", "thermostatMode"]⟩])
      = desiredCapabilitySet
          {"switch", "switchLevel", "thermostatMode", "healthCheck"}
          [⟨["switch", "switchLevel"]⟩, ⟨["switch", "thermostatMode"]⟩] :=
  reconcile_convergence _ _ _ _ _ _ _ (by decide)

/-- C3: when the remote snapshot holds exactly one subscription per
desired capability and nothing else, the pass issues only the single
listing call: zero creates and zero deletes (so an immediate second run
after a successful pass is a no-op). -/
theorem reconcile_idempotent (ALLOW : Finset String) (devices : List Device)
    (subs : List SubscriptionE)
    (apiCreate : Subscription → Except String Unit)
    (apiDelete : String → String → Except String Unit)
    (app loc : String)
    (hnd : (subs.map SubscriptionE.capability).Nodup)
    (hT : (subs.map SubscriptionE.capability).toFinset
        = desiredCapabilitySet ALLOW devices) :
    (smartapp_sync_subscriptions ALLOW (.ok subs) apiCreate apiDelete
        app loc devices).2
      = [.listSubscriptions app] := by
  obtain ⟨-, hd⟩ :=
    partitionSubs_of_nodup subs (desiredCapabilitySet ALLOW devices) hnd
  have hdel : (partitionSubs subs (desiredCapabilitySet ALLOW devices)).2.2
      = [] := by
    rw [hd, List.filter_eq_nil_iff]
    intro s hs
    simp only [decide_eq_true_eq, Decidable.not_not]
    rw [← hT]
    exact List.mem_toFinset.mpr (List.mem_map_of_mem _ hs)
  have hcr : (partitionSubs subs (desiredCapabilitySet ALLOW devices)).1
      = ∅ := by
    rw [partitionSubs_create_eq, hT, Finset.sdiff_self]
  simp [smartapp_sync_subscriptions, hdel, hcr]

/-- C3, witness: a snapshot already holding exactly the desired
`switch` subscription. -/
theorem reconcile_idempotent_witness :
    (smartapp_sync_subscriptions {"switch"} (.ok [⟨"s1", "switch"⟩])
        (fun _ => .ok ()) (fun _ _ => .ok ()) "app1" "loc1"
        [⟨["switch"]⟩]).2
      = [.listSubscriptions "app1"] :=
  reconcile_idempotent _ _ _ _ _ _ _ (by decide) (by decide)

/-- C9: when the remote snapshot holds several subscriptions for the
same desired capability `c`, the pass keeps exactly the first one in
iteration order (`find?`) and marks every other one for deletion: the
kept list has pairwise-distinct capabilities (the at-most-one invariant
is restored), the kept subscriptions with capability `c` are exactly
the first matching entry of the snapshot, kept and deleted entries
together are a permutation of the snapshot, their counts for `c` add up,
and at most one entry per capability is kept. -/
theorem reconcile_prunes_duplicate_subscriptions (caps : Finset String)
    (subs : List SubscriptionE) (c : String) (hc : c ∈ caps) :
    ((partitionSubs subs caps).2.1.map SubscriptionE.capability).Nodup ∧
    (partitionSubs subs caps).2.1.filter (fun s => s.capability == c)
        = (subs.find? (fun s => s.capability == c)).toList ∧
    ((partitionSubs subs caps).2.1 ++ (partitionSubs subs caps).2.2).Perm subs ∧
    (partitionSubs subs caps).2.1.countP (fun s => s.capability == c)
        + (partitionSubs subs caps).2.2.countP (fun s => s.capability == c)
        = subs.countP (fun s => s.capability == c) ∧
    (partitionSubs subs caps).2.1.countP (fun s => s.capability == c) ≤ 1 := by
  refine ⟨partitionSubs_kept_nodup subs caps,
    partitionSubs_filter_first subs caps c hc,
    partitionSubs_perm subs caps, ?_, ?_⟩
  · have := List.Perm.countP_eq (fun s => s.capability == c)
      (partitionSubs_perm subs caps)
    simpa [List.countP_append] using this
  · rw [List.countP_eq_length_filter,
      partitionSubs_filter_first subs caps c hc]
    cases subs.find? (fun s => s.capability == c) <;> simp

/-- C9, witness: a snapshot with three `switch` subscriptions; the first
is kept, the later two deleted. -/
theorem reconcile_prunes_duplicate_subscriptions_witness :
    ((partitionSubs [⟨"s1", "switch"⟩, ⟨"s2", "switch"⟩, ⟨"s3", "switch"⟩]
        {"switch"}).2.1.map SubscriptionE.capability).Nodup ∧
    (partitionSubs [⟨"s1", "switch"⟩, ⟨"s2", "switch"⟩, ⟨"s3", "switch"⟩]
        {"switch"}).2.1.filter (fun s => s.capability == "switch")
        = (([⟨"s1", "switch"⟩, ⟨"s2", "switch"⟩, ⟨"s3", "switch"⟩] :
            List SubscriptionE).find?
            (fun s => s.capability == "switch")).toList ∧
    ((partitionSubs [⟨"s1", "switch"⟩, ⟨"s2", "switch"⟩, ⟨"s3", "switch"⟩]
          {"switch"}).2.1
        ++ (partitionSubs [⟨"s1", "switch"⟩, ⟨"s2", "switch"⟩, ⟨"s3", "switch"⟩]
          {"switch"}).2.2).Perm
      [⟨"s1", "switch"⟩, ⟨"s2", "switch"⟩, ⟨"s3", "switch"⟩] ∧
    (partitionSubs [⟨"s1", "switch"⟩, ⟨"s2", "switch"⟩, ⟨"s3", "switch"⟩]
        {"switch"}).2.1.countP (fun s => s.capability == "switch")
        + (partitionSubs [⟨"s1", "switch"⟩, ⟨"s2", "switch"⟩, ⟨"s3", "switch"⟩]
          {"switch"}).2.2.countP (fun s => s.capability == "switch")
        = ([⟨"s1", "switch"⟩, ⟨"s2", "switch"⟩, ⟨"s3", "switch"⟩] :
            List SubscriptionE).countP (fun s => s.capability == "switch") ∧
    (partitionSubs [⟨"s1", "switch"⟩, ⟨"s2", "switch"⟩, ⟨"s3", "switch"⟩]
        {"switch"}).2.1.countP (fun s => s.capability == "switch") ≤ 1 :=
  reconcile_prunes_duplicate_subscriptions _ _ _ (by decide)

/-- C6: re-invoking the location-selection step with no selection in the
input issues the listing call again (every invocation of the fetch
branch calls `api.locations()`), while invoking it with a stored
selection issues no listing call at all and proceeds directly to the
`authorize` external step. -/
theorem select_location_refetch_or_skip (api : RemoteApi) (st : FlowState)
    (l : List (String × String)) (loc : String)
    (hsel : l.lookup CONF_LOCATION_ID = some loc) :
    (async_step_select_location api st none).2.2 = [.listLocations] ∧
    async_step_select_location api st (some l)
      = ({ st with location_id := some loc },
         .ok (.externalStep "authorize" st.app_id (some loc)), []) := by
  constructor
  · show (select_location_fetch api st).2.2 = [.listLocations]
    unfold select_location_fetch
    cases api.locations with
    | error e => rfl
    | ok locations =>
      dsimp only
      split <;> rfl
  · unfold async_step_select_location
    simp only [hsel]
    rfl

/-- C6, witness: a selection previously stored for location `loc-1`
skips the listing, while the selection-free invocation lists. -/
theorem select_location_refetch_or_skip_witness :
    (async_step_select_location
        ⟨.ok none, .ok (), .ok (), .ok ("a", "b", "c"), .ok [⟨"loc-1", "Home"⟩]⟩
        initialFlowState none).2.2 = [.listLocations] ∧
    async_step_select_location
        ⟨.ok none, .ok (), .ok (), .ok ("a", "b", "c"), .ok [⟨"loc-1", "Home"⟩]⟩
        initialFlowState (some [(CONF_LOCATION_ID, "loc-1")])
      = ({ initialFlowState with location_id := some "loc-1" },
         .ok (.externalStep "authorize" initialFlowState.app_id (some "loc-1")),
         []) :=
  select_location_refetch_or_skip _ _ _ _ (by decide)

/-- C5: when a syntactically valid credential is submitted and the
guarded app-registration block (`find_app`, `refresh`, `update_app`, or
`create_app`) raises an API/transport error, `async_step_pat` stays at
the `pat` (credential) step with the step-local `app_setup_error`
annotation, and the location-selection step is not reached (no
`listLocations` call is issued). -/
theorem pat_api_error_stays_on_credential_step (api : RemoteApi)
    (st : FlowState) (l : List (String × String)) (token : String)
    (htok : l.lookup CONF_ACCESS_TOKEN = some token)
    (hval : VAL_UID_MATCHER token = true)
    (hfail : app_setup_fails api = true) :
    (async_step_pat api st (some l)).2.1
        = .ok (.showForm "pat" [("base", "app_setup_error")]) ∧
    FlowCall.listLocations ∉ (async_step_pat api st (some l)).2.2 := by
  unfold async_step_pat
  simp only [Option.bind, htok, hval, if_true]
  rcases hf : api.find_app with e | oapp
  · simp [hf]
  · rcases oapp with _ | aid
    · rcases hcr : api.create_app with e | v
      · simp [hf, hcr]
      · simp [app_setup_fails, hf, hcr] at hfail
    · rcases hr : api.app_refresh with e | u
      · simp [hf, hr]
      · rcases hu : api.update_app with e | u2
        · simp [hf, hr, hu]
        · simp [app_setup_fails, hf, hr, hu] at hfail

/-- C5, witness: a valid 32-hex credential whose `find_app` call raises. -/
theorem pat_api_error_stays_on_credential_step_witness :
    (async_step_pat
        ⟨.error "bad gateway", .ok (), .ok (), .ok ("a", "b", "c"), .ok []⟩
        initialFlowState
        (some [(CONF_ACCESS_TOKEN, "0123456789abcdef0123456789abcdef")])).2.1
        = .ok (.showForm "pat" [("base", "app_setup_error")]) ∧
    FlowCall.listLocations ∉
      (async_step_pat
        ⟨.error "bad gateway", .ok (), .ok (), .ok ("a", "b", "c"), .ok []⟩
        initialFlowState
        (some [(CONF_ACCESS_TOKEN, "0123456789abcdef0123456789abcdef")])).2.2 :=
  pat_api_error_stays_on_credential_step
    ⟨.error "bad gateway", .ok (), .ok (), .ok ("a", "b", "c"), .ok []⟩
    initialFlowState
    [(CONF_ACCESS_TOKEN, "0123456789abcdef0123456789abcdef")]
    "0123456789abcdef0123456789abcdef"
    (by decide) (by decide) (by decide)

/-- C10: the terminal step performs no presence validation.  Starting
from a fresh flow, a valid token whose `find_app` call returns a
pre-existing registration (so no OAuth client is issued), followed by a
location selection and an authorization callback payload that omits both
the `installed_app_id` and `refresh_token` keys, still creates the
entry — with `none` recorded for `oauth_client_id`,
`oauth_client_secret`, `installed_app_id` and `refresh_token`. -/
theorem complete_step_no_presence_validation
    (api : RemoteApi) (l payload : List (String × String))
    (token aid locid : String)
    (htok : l.lookup CONF_ACCESS_TOKEN = some token)
    (hval : VAL_UID_MATCHER token = true)
    (hfind : api.find_app = .ok (some aid))
    (hrefresh : api.app_refresh = .ok ())
    (hupdate : api.update_app = .ok ())
    (hne : payload ≠ [])
    (hnoapp : payload.lookup CONF_INSTALLED_APP_ID = none)
    (hnotok : payload.lookup CONF_REFRESH_TOKEN = none) :
    (async_step_authorize
        (async_step_select_location api
            (async_step_pat api initialFlowState (some l)).1
            (some [(CONF_LOCATION_ID, locid)])).1
        (some payload)).2.1
      = .ok (.createEntry "SmartThings"
          { access_token := some token, refresh_token := none,
            client_id := none, client_secret := none,
            location_id := some locid, app_id := some aid,
            installed_app_id := none }) := by
  have hpat : (async_step_pat api initialFlowState (some l)).1
      = { initialFlowState with
            access_token := some token, app_id := some aid } := by
    unfold async_step_pat
    simp only [Option.bind, htok, hval, if_true, hfind, hrefresh, hupdate]
    exact select_location_fetch_state api _
  have hlk : ([(CONF_LOCATION_ID, locid)] : List (String × String)).lookup
      CONF_LOCATION_ID = some locid := by
    simp [List.lookup]
  have hsel : (async_step_select_location api
        (async_step_pat api initialFlowState (some l)).1
        (some [(CONF_LOCATION_ID, locid)])).1
      = { initialFlowState with
            access_token := some token, app_id := some aid,
            location_id := some locid } := by
    rw [hpat]
    unfold async_step_select_location
    simp only [hlk]
    rfl
  rw [hsel]
  have hne' : payload.isEmpty = false := by
    cases payload with
    | nil => exact absurd rfl hne
    | cons a t => rfl
  unfold async_step_authorize
  simp only [hne', hnoapp, hnotok]
  rfl

/-- C10, witness: concrete run with a found registration and a callback
payload holding neither key. -/
theorem complete_step_no_presence_validation_witness :
    (async_step_authorize
        (async_step_select_location
            ⟨.ok (some "app-1"), .ok (), .ok (), .ok ("a", "b", "c"),
             .ok [⟨"loc-1", "Home"⟩]⟩
            (async_step_pat
              ⟨.ok (some "app-1"), .ok (), .ok (), .ok ("a", "b", "c"),
               .ok [⟨"loc-1", "Home"⟩]⟩
              initialFlowState
              (some [(CONF_ACCESS_TOKEN, "0123456789abcdef0123456789abcdef")])).1
            (some [(CONF_LOCATION_ID, "loc-1")])).1
        (some [("lifecycle", "INSTALL")])).2.1
      = .ok (.createEntry "SmartThings"
          { access_token := some "0123456789abcdef0123456789abcdef",
            refresh_token := none, client_id := none, client_secret := none,
            location_id := some "loc-1", app_id := some "app-1",
            installed_app_id := none }) :=
  complete_step_no_presence_validation
    ⟨.ok (some "app-1"), .ok (), .ok (), .ok ("a", "b", "c"),
     .ok [⟨"loc-1", "Home"⟩]⟩
    [(CONF_ACCESS_TOKEN, "0123456789abcdef0123456789abcdef")]
    [("lifecycle", "INSTALL")]
    "0123456789abcdef0123456789abcdef" "app-1" "loc-1"
    (by decide) (by decide) rfl rfl rfl
    (by decide) (by decide) (by decide)

end SmartThingsV2
